import Mathlib

/-!
Verification of the Triton resource-group reconciler (`resources` package)
and the Triton SDK constructor (`tritonSDK` package) of niravpatel27/kubicorn.

The reconciler source is shallowly embedded: Go strings become `String`,
Go `map[string]string` becomes an association list, Go slices become `List`,
a Go pointer that may be nil becomes `Option`, and each fallible remote call
becomes an outcome drawn from an explicit environment.  A run of a function
yields a `GoResult` (normal return, returned error, or runtime panic) paired
with the ordered trace of remote calls it issued.
-/

namespace KubicornTriton

/-- Constants from the `resources` package (part_000, lines 32-40). -/
def MasterIPAttempts : Nat := 100

def PackageName : String := "k4-highcpu-kvm-1.75G"

def ImageName : String := "ubuntu-certified-16.04"

def ImageVersion : String := "20180222"

def NetworkName : String := "Joyent-SDC-Public"

def FabricNetwork : String := "My-Fabric-Network"

/-- `cluster.ServerPoolTypeMaster` (external kubicorn constant, a string). -/
def ServerPoolTypeMaster : String := "master"

/-- `cluster.ServerPoolTypeNode` (external kubicorn constant, a string). -/
def ServerPoolTypeNode : String := "node"

/-- A `*compute.Instance` as the reconciler reads it: id, name and the
slice of network addresses (`IPs`), per the RemoteInstance view of the spec. -/
structure RemoteInstance where
  id : String
  name : String
  ips : List String
deriving DecidableEq, Repr

/-- Outcome of one `Sdk.Compute.Instances().Get` call.  The Go client
returns `(*compute.Instance, error)`; on failure the pointer is nil, so
`ok inst` models `(inst, nil)` and `fail e` models `(nil, e)`. -/
inductive FetchOutcome where
  | ok (inst : RemoteInstance)
  | fail (e : String)
deriving DecidableEq, Repr

/-- `ret := make([]string, 3, 3)` from `getMasterIP`: a slice of length 3
whose elements are the empty string. -/
def retInit : List String := ["", "", ""]

/-- Loop body of `getMasterIP` (part_000, lines 240-256), recursing on the
remaining attempts with `i` the index of the next fetch.  `fetches` gives the
outcome of each successive `Get` on the polled identifier.  Returns the Go
result `([]string, error)` together with the number of fetches performed. -/
def getMasterIPFrom (fetches : Nat → FetchOutcome) (i : Nat) :
    Nat → (List String × Option String) × Nat
  | 0 => ((retInit, none), 0)
  | n + 1 =>
    match fetches i with
    | .fail e => ((retInit, some e), 1)
    | .ok inst =>
      if inst.ips.length > 0 then ((inst.ips, none), 1)
      else
        let r := getMasterIPFrom fetches (i + 1) n
        (r.1, r.2 + 1)

/-- `getMasterIP` (part_000, lines 237-258): poll `Get` on the identifier up
to `MasterIPAttempts` times; return the instance's IPs on the first fetch
reporting at least one, return the error on the first failed fetch, and
return `ret` (three empty strings) with nil error when attempts run out.
The result is paired with the number of fetches performed. -/
def getMasterIP (fetches : Nat → FetchOutcome) :
    (List String × Option String) × Nat :=
  getMasterIPFrom fetches 0 MasterIPAttempts

/-- A fetch environment whose every attempt succeeds with zero addresses. -/
def allEmptyFetches : Nat → FetchOutcome :=
  fun _ => .ok ⟨"i-123", "node-1", []⟩

/-- The spec scenario environment: two empty fetches, then one address. -/
def scenarioFetches : Nat → FetchOutcome :=
  fun i => if i < 2 then .ok ⟨"i-123", "node-1", []⟩
           else .ok ⟨"i-123", "node-1", ["10.0.0.5"]⟩

/-- A fetch environment with one empty success followed by failures. -/
def oneEmptyThenFail : Nat → FetchOutcome :=
  fun i => if i < 1 then .ok ⟨"i-123", "node-1", []⟩ else .fail "boom"

/-- The `Shared` embedded struct as this file uses it (declared elsewhere in
the repository): the `Name`, `Tags` and `Identifier` fields read and written
by the reconciler. -/
structure Shared where
  name : String
  tags : List (String × String)
  identifier : String
deriving DecidableEq, Repr

/-- `cluster.ServerPool` as consumed here: `Name`, `Type`, `Identifier` and
`BootstrapScripts` (external kubicorn data model). -/
structure ServerPool where
  name : String
  type : String
  identifier : String
  bootstrapScripts : List String
deriving DecidableEq, Repr

/-- `ResourceGroup` (part_000, lines 42-46).  `ServerPool` is a Go pointer,
hence `Option`. -/
structure ResourceGroup where
  shared : Shared
  bootstrapScripts : List String
  serverPool : Option ServerPool
deriving DecidableEq, Repr

/-- Modelled from the spec: the shared cluster state object (§3, §6) —
"endpoint (string), port (string/int), and a generic string-keyed injection
map".  The kubicorn `apis/cluster` data-model package is not among the
source files; `ProviderConfig()` / `SetProviderConfig` are modelled as plain
record access so that an assignment through them reads and writes these
fields directly. -/
structure KubernetesAPI where
  endpoint : String
  port : String
deriving DecidableEq, Repr

/-- Modelled from the spec: the provider configuration carried by the
cluster state — the Kubernetes API endpoint/port, the `Values.ItemMap`
injection map, and the `GroupIdentifier` written by the render step. -/
structure ProviderConfig where
  kubernetesAPI : KubernetesAPI
  itemMap : List (String × String)
  groupIdentifier : String
deriving DecidableEq, Repr

/-- Modelled from the spec: the cluster state snapshot (`cluster.Cluster`)
as read and written by this reconciler. -/
structure Cluster where
  name : String
  providerConfig : ProviderConfig
deriving DecidableEq, Repr

/-- Map write `m[k] = v` on a string-keyed Go map modelled as an
association list: replaces the binding of `k` or appends it. -/
def insertItem (m : List (String × String)) (k v : String) :
    List (String × String) :=
  match m with
  | [] => [(k, v)]
  | (k', v') :: rest =>
    if k' = k then (k, v) :: rest else (k', v') :: insertItem rest k v

/-- Modelled from the spec: `compare.IsEqual` (§6 equality comparer) —
"structural equality between Actual and Expected results (all fields)",
returning `(bool, error)`; the comparison itself does not fail. -/
def isEqual (a b : ResourceGroup) : Bool × Option String :=
  (decide (a = b), none)

/-- A `compute.Image` as consumed here: only its `ID` is read (the zero
value has an empty id). -/
structure Image where
  id : String
deriving DecidableEq, Repr

/-- A `*network.Network` as consumed here: `Id` and `Name`. -/
structure Network where
  id : String
  name : String
deriving DecidableEq, Repr

/-- `compute.CreateInstanceInput` with the fields this package fills in
(part_000, lines 158-172). -/
structure CreateInstanceInput where
  name : String
  package : String
  image : String
  networks : List String
  metadata : List (String × String)
  tags : List (String × String)
  cnsServices : List String
deriving DecidableEq, Repr

/-- One remote call issued through the SDK facade, recorded in order. -/
inductive RemoteCall where
  | getInstance (id : String)
  | listImages (name version : String)
  | listNetworks
  | createInstance (input : CreateInstanceInput)
deriving DecidableEq, Repr

/-- Outcome of a Go function run: a normal return value, a returned
`error`, or a runtime panic. -/
inductive GoResult (α : Type) where
  | panic (msg : String)
  | err (e : String)
  | ok (v : α)
deriving DecidableEq, Repr

/-- Environment fixing the outcome of every external call a reconcile
operation can make.  `getInstance id i` is the outcome of the `i`-th
successive `Get` on `id`; `buildScript` is the external bootstrap-script
renderer of §6 (not a remote call). -/
structure Env where
  getInstance : String → Nat → FetchOutcome
  listImages : Except String (List Image)
  listNetworks : Except String (List Network)
  createInstance : CreateInstanceInput → Except String RemoteInstance
  buildScript : Except String String

/-- Panic message of a Go nil-pointer dereference. -/
def nilDeref : String := "invalid memory address or nil pointer dereference"

/-- Panic message of a Go out-of-range slice index. -/
def indexRange : String := "index out of range"

/-- `ResourceGroup.Actual` (part_000, lines 49-76).  Builds the observed
resource; with a non-empty identifier it fetches the instance and copies
`instance.Name` / `instance.ID` *before* the `err != nil` check, so a
failed fetch (nil instance pointer) panics. -/
def ResourceGroup.Actual (env : Env) (r : ResourceGroup) (immutable : Cluster) :
    GoResult (Cluster × ResourceGroup) × List RemoteCall :=
  match r.serverPool with
  | none => (.panic nilDeref, [])
  | some pool =>
    let newResource : ResourceGroup :=
      { shared := { name := r.shared.name, tags := [("Name", pool.name)],
                    identifier := r.shared.identifier },
        bootstrapScripts := [], serverPool := none }
    if newResource.shared.identifier ≠ "" then
      match env.getInstance newResource.shared.identifier 0 with
      | .fail _ =>
        (.panic nilDeref, [.getInstance newResource.shared.identifier])
      | .ok inst =>
        let nr : ResourceGroup :=
          { newResource with
              shared := { newResource.shared with
                            name := inst.name, identifier := inst.id } }
        (.ok (immutable, nr), [.getInstance newResource.shared.identifier])
    else
      (.ok (immutable, newResource), [])

/-- `ResourceGroup.Expected` (part_000, lines 79-92): the desired resource,
computed with no remote calls. -/
def ResourceGroup.Expected (r : ResourceGroup) (immutable : Cluster) :
    GoResult (Cluster × ResourceGroup) × List RemoteCall :=
  match r.serverPool with
  | none => (.panic nilDeref, [])
  | some pool =>
    (.ok (immutable,
      { shared := { name := r.shared.name, tags := [("Name", pool.name)],
                    identifier := r.shared.identifier },
        bootstrapScripts := [], serverPool := r.serverPool }), [])

/-- The network-matching loop of `Apply` (part_000, lines 149-156): scan the
listing, keeping the last network named `NetworkName` as `net1` and the last
named `FabricNetwork` as `net2`, both starting out nil. -/
def findNetsStep (acc : Option Network × Option Network) (found : Network) :
    Option Network × Option Network :=
  (if found.name = NetworkName then some found else acc.1,
   if found.name = FabricNetwork then some found else acc.2)

/-- The fold of `findNetsStep` over the listing, both pointers starting nil. -/
def findNets (nets : List Network) : Option Network × Option Network :=
  nets.foldl findNetsStep (none, none)

/-- Node branch of `Apply` (part_000, lines 107-117): when the pool is a
node, poll the master IP on the resource's own identifier, write the first
discovered address into the endpoint, and record the `"address:port"`
composite under INJECTEDMASTER.  `masterIPs[0]` on an empty slice would be
an out-of-range panic. -/
def applyNodeStage (env : Env) (r : ResourceGroup) (pool : ServerPool)
    (immutable : Cluster) : GoResult Cluster × List RemoteCall :=
  if pool.type = ServerPoolTypeNode then
    let g := getMasterIP (env.getInstance r.shared.identifier)
    let calls := List.replicate g.2 (RemoteCall.getInstance r.shared.identifier)
    match g.1.2 with
    | some e => (.err e, calls)
    | none =>
      match g.1.1 with
      | [] => (.panic indexRange, calls)
      | ip :: _ =>
        let c1 : Cluster :=
          { immutable with providerConfig :=
            { immutable.providerConfig with kubernetesAPI :=
              { immutable.providerConfig.kubernetesAPI with endpoint := ip } } }
        let newMap := insertItem c1.providerConfig.itemMap "INJECTEDMASTER"
          (ip ++ ":" ++ c1.providerConfig.kubernetesAPI.port)
        (.ok { c1 with providerConfig :=
                { c1.providerConfig with itemMap := newMap } }, calls)
  else (.ok immutable, [])

/-- Master branch of `Apply` (part_000, lines 178-192): when the pool is a
master, poll the created instance's id; propagate a fetch error, report
"Unable to find master IP addresses" when the list is empty, otherwise
write the first address into the endpoint. -/
def applyMasterStage (env : Env) (pool : ServerPool) (created : RemoteInstance)
    (c3 : Cluster) : GoResult Cluster × List RemoteCall :=
  if pool.type = ServerPoolTypeMaster then
    let g := getMasterIP (env.getInstance created.id)
    let calls := List.replicate g.2 (RemoteCall.getInstance created.id)
    match g.1.2 with
    | some e => (.err e, calls)
    | none =>
      if g.1.1.length = 0 then
        (.err "Unable to find master IP addresses", calls)
      else
        match g.1.1 with
        | [] => (.panic indexRange, calls)
        | ip :: _ =>
          (.ok { c3 with providerConfig :=
            { c3.providerConfig with kubernetesAPI :=
              { c3.providerConfig.kubernetesAPI with endpoint := ip } } },
           calls)
  else (.ok c3, [])

/-- `Apply` after the bootstrap script has rendered (part_000, lines
127-205): image lookup (errors only logged, zero-value image when none
found), network lookup (errors only logged), dereference of the
possibly-nil `net1` / `net2` to build the create input, the create call,
the master branch, and the final resource carrying the created id (which
also panics if the expected resource's pool pointer is nil). -/
def applyAfterScript (env : Env) (pool : ServerPool)
    (expectedR : ResourceGroup) (c3 : Cluster) (boostrapScript : String) :
    GoResult (Cluster × ResourceGroup) × List RemoteCall :=
  let images : List Image :=
    match env.listImages with
    | .error _ => []
    | .ok l => l
  let img : Image :=
    match images with
    | [] => { id := "" }
    | i :: _ => i
  let tr2 := [RemoteCall.listImages ImageName ImageVersion]
  let nets : List Network :=
    match env.listNetworks with
    | .error _ => []
    | .ok l => l
  let tr3 := tr2 ++ [RemoteCall.listNetworks]
  match findNets nets with
  | (some net1, some net2) =>
    let createInput : CreateInstanceInput :=
      { name := pool.name, package := PackageName, image := img.id,
        networks := [net1.id, net2.id],
        metadata := [("user-script", boostrapScript)],
        tags := [("name", pool.name)],
        cnsServices := [pool.name] }
    let tr4 := tr3 ++ [RemoteCall.createInstance createInput]
    match env.createInstance createInput with
    | .error e => (.err e, tr4)
    | .ok created =>
      match applyMasterStage env pool created c3 with
      | (.panic m, tr5) => (.panic m, tr4 ++ tr5)
      | (.err e, tr5) => (.err e, tr4 ++ tr5)
      | (.ok c4, tr5) =>
        match expectedR.serverPool with
        | none => (.panic nilDeref, tr4 ++ tr5)
        | some sp =>
          let newResource : ResourceGroup :=
            { shared := { name := pool.name, tags := [],
                          identifier := created.id },
              bootstrapScripts := [],
              serverPool := some { sp with identifier := created.id } }
          (.ok (c4, newResource), tr4 ++ tr5)
  | (_, _) => (.panic nilDeref, tr3)

/-- The unconditional INJECTEDPORT write of `Apply` (part_000, lines
118-120): record the control-plane port in the injection map. -/
def injectPort (c2 : Cluster) : Cluster :=
  { c2 with providerConfig :=
      { c2.providerConfig with itemMap :=
          (insertItem c2.providerConfig.itemMap "INJECTEDPORT"
            c2.providerConfig.kubernetesAPI.port) } }

/-- `ResourceGroup.Apply` (part_000, lines 94-207).  Compare short-circuit;
node branch (`applyNodeStage`); unconditional INJECTEDPORT write; bootstrap
script; then `applyAfterScript` (images, networks, create, master branch,
final resource). -/
def ResourceGroup.Apply (env : Env) (r : ResourceGroup)
    (actualR expectedR : ResourceGroup) (immutable : Cluster) :
    GoResult (Cluster × ResourceGroup) × List RemoteCall :=
  let cmp := isEqual actualR expectedR
  match cmp.2 with
  | some e => (.err e, [])
  | none =>
  if cmp.1 then
    (.ok (immutable, expectedR), [])
  else
  match r.serverPool with
  | none => (.panic nilDeref, [])
  | some pool =>
  match applyNodeStage env r pool immutable with
  | (.panic m, tr) => (.panic m, tr)
  | (.err e, tr) => (.err e, tr)
  | (.ok c2, tr1) =>
    let c3 := injectPort c2
    match env.buildScript with
    | .error e => (.err e, tr1)
    | .ok boostrapScript =>
      let rest := applyAfterScript env pool expectedR c3 boostrapScript
      (rest.1, tr1 ++ rest.2)

/-- `ResourceGroup.immutableRender` (part_000, lines 226-235): fold the
resource's identifying fields into the cluster state — a fresh zero-valued
provider config carrying only the group identifier, and the resource name. -/
def ResourceGroup.immutableRender (newResource : ResourceGroup)
    (inaccurateCluster : Cluster) : Cluster :=
  { inaccurateCluster with
      name := newResource.shared.name,
      providerConfig :=
        { kubernetesAPI := { endpoint := "", port := "" },
          itemMap := [], groupIdentifier := newResource.shared.identifier } }

/-- `ResourceGroup.Delete` (part_000, lines 208-224): fails on an empty
identifier, otherwise returns the cleared-down resource and the rendered
cluster; no remote call is ever issued. -/
def ResourceGroup.Delete (r : ResourceGroup) (actualR : ResourceGroup)
    (immutable : Cluster) :
    GoResult (Cluster × ResourceGroup) × List RemoteCall :=
  if actualR.shared.identifier = "" then
    (.err ("Unable to delete VPC resource without ID ["
            ++ actualR.shared.name ++ "]"), [])
  else
    let newResource : ResourceGroup :=
      { shared := { name := r.shared.name, tags := r.shared.tags,
                    identifier := "" },
        bootstrapScripts := [], serverPool := none }
    (.ok (ResourceGroup.immutableRender newResource immutable, newResource), [])

/-- An `authentication.Signer` handle (opaque to this package). -/
structure Signer where
  kind : String
deriving DecidableEq, Repr

/-- A `*compute.ComputeClient` handle (opaque to this package). -/
structure ComputeClient where
  handle : String
deriving DecidableEq, Repr

/-- A `*network.NetworkClient` handle (opaque to this package). -/
structure NetworkClient where
  handle : String
deriving DecidableEq, Repr

/-- `Sdk` (sdk.go, lines 30-33). -/
structure Sdk where
  compute : ComputeClient
  network : NetworkClient
deriving DecidableEq, Repr

/-- A PEM block as `NewSdk` inspects it: the `Proc-Type` header value
(empty when absent). -/
structure PemBlock where
  procType : String
deriving DecidableEq, Repr

/-- Environment fixing the outcome of every external operation `NewSdk`
performs: the two environment variables, the `os.Stat` probe on the key
material, the file read, PEM decoding, signer construction and client
construction. -/
structure SdkEnv where
  keyMaterialEnv : String
  userEnv : String
  statOk : Bool
  readFileResult : Except String String
  pemDecode : String → Option PemBlock
  sshAgentSigner : Except String Signer
  privateKeySigner : Except String Signer
  computeClient : Except String ComputeClient
  networkClient : Except String NetworkClient

/-- Outcome of a `NewSdk` run: `fatal` models `log.Fatalf` (the process
terminates, nothing is returned to the caller), `ret` models a normal
return of the `(*Sdk, error)` pair. -/
inductive NewSdkOutcome where
  | fatal (msg : String)
  | ret (sdk : Option Sdk) (err : Option String)
deriving DecidableEq, Repr

/-- Client construction at the end of `NewSdk` (sdk.go, lines 103-119):
both constructors `log.Fatalf` on error, then the pair is returned with a
nil error. -/
def mkClients (env : SdkEnv) : NewSdkOutcome :=
  match env.computeClient with
  | .error e => .fatal ("Compute NewClient(): " ++ e)
  | .ok cc =>
    match env.networkClient with
    | .error e => .fatal ("Network NewClient(): " ++ e)
    | .ok nc => .ret (some ⟨cc, nc⟩) none

/-- `NewSdk` (sdk.go, lines 43-120).  `keyID` and `accountName` are
hard-coded constants; both "Empty $TRITON_KEY_ID" guards test the same
`keyID` variable.  With no key material in the environment an SSH agent
signer is built, otherwise the material is treated as a file path when
`os.Stat` succeeds (read + PEM decode + encryption check) or as inline key
bytes, and a private key signer is built; every failure in signer or
client construction is `log.Fatalf`. -/
def NewSdk (env : SdkEnv) : NewSdkOutcome :=
  let keyID := "f7:75:b3:53:fe:d5:5d:26:13:2a:7f:9b:6b:2e:94:94"
  if keyID = "" then .ret none (some "Empty $TRITON_KEY_ID")
  else if keyID = "" then .ret none (some "Empty $TRITON_KEY_ID")
  else
    let keyMaterial := env.keyMaterialEnv
    if keyMaterial = "" then
      match env.sshAgentSigner with
      | .error e => .fatal ("Error Creating SSH Agent Signer: " ++ e)
      | .ok _ => mkClients env
    else
      if env.statOk then
        match env.readFileResult with
        | .error e =>
          .fatal ("Error reading key material from "
                   ++ keyMaterial ++ ": " ++ e)
        | .ok keyBytes =>
          match env.pemDecode keyBytes with
          | none =>
            .fatal ("Failed to read key material '" ++ keyMaterial
                     ++ "': no key found")
          | some block =>
            if block.procType = "4,ENCRYPTED" then
              .fatal ("Failed to read key '" ++ keyMaterial
                       ++ "': password protected keys are not currently supported.")
            else
              match env.privateKeySigner with
              | .error e =>
                .fatal ("Error Creating SSH Private Key Signer: " ++ e)
              | .ok _ => mkClients env
      else
        match env.privateKeySigner with
        | .error e => .fatal ("Error Creating SSH Private Key Signer: " ++ e)
        | .ok _ => mkClients env

/-- Fixture environment whose external calls are all unused. -/
def envQuiet : Env :=
  { getInstance := fun _ _ => .fail "unused",
    listImages := .error "unused",
    listNetworks := .error "unused",
    createInstance := fun _ => .error "unused",
    buildScript := .error "unused" }

/-- Fixture cluster state with an empty endpoint and port 443. -/
def clusterFix : Cluster := ⟨"c", ⟨⟨"", "443"⟩, [], ""⟩⟩

/-- A resource with no identifier and no pool pointer. -/
def rgPlain : ResourceGroup := ⟨⟨"node-1", [], ""⟩, [], none⟩

/-- A resource carrying a remote identifier. -/
def rgWithId : ResourceGroup := ⟨⟨"node-1", [("k", "v")], "i-55"⟩, [], none⟩

/-- Environment whose instance fetches fail with a transport error. -/
def envFetchFail : Env :=
  { envQuiet with getInstance := fun _ _ => .fail "transport error" }

/-- Environment whose instance fetches succeed with a live instance. -/
def envFetchOk : Env :=
  { envQuiet with
      getInstance := fun _ _ => .ok ⟨"i-9", "live-name", ["10.0.0.7"]⟩ }

/-- A resource with identifier "i-1" and a node pool, used for `Actual`. -/
def rgActual : ResourceGroup :=
  ⟨⟨"node-1", [], "i-1"⟩, [], some ⟨"pool-1", "node", "", []⟩⟩

/-- A master server pool. -/
def poolMaster : ServerPool := ⟨"master-1", "master", "", ["master.sh"]⟩

/-- The observed (actual) resource before creation: no pool pointer. -/
def actMaster : ResourceGroup :=
  ⟨⟨"master-1", [("Name", "master-1")], ""⟩, [], none⟩

/-- The desired (expected) resource: carries the pool pointer. -/
def expMaster : ResourceGroup :=
  ⟨⟨"master-1", [("Name", "master-1")], ""⟩, [], some poolMaster⟩

/-- The reconciler receiver for the master pool. -/
def rgMaster : ResourceGroup := ⟨⟨"master-1", [], ""⟩, [], some poolMaster⟩

/-- Environment where every remote prerequisite succeeds, create returns
instance "i-123", and every poll of it reports zero addresses. -/
def envMasterExhaust : Env :=
  { getInstance := fun _ _ => .ok ⟨"i-123", "master-1", []⟩,
    listImages := .ok [⟨"img-1"⟩],
    listNetworks := .ok [⟨"net-pub", NetworkName⟩, ⟨"net-fab", FabricNetwork⟩],
    createInstance := fun _ => .ok ⟨"i-123", "master-1", []⟩,
    buildScript := .ok "bootstrap" }

/-- Like `envMasterExhaust` but the network listing matches neither
expected network name. -/
def envNoNets : Env :=
  { envMasterExhaust with
      listNetworks := .ok [⟨"net-x", "Some-Other-Network"⟩] }

/-- A node (worker) server pool. -/
def poolNode : ServerPool := ⟨"node-1", "node", "", ["node.sh"]⟩

/-- The reconciler receiver for the node pool; its identifier is the one
the node branch polls for the master address. -/
def rgNode : ResourceGroup := ⟨⟨"node-1", [], "m-1"⟩, [], some poolNode⟩

/-- Observed node resource (diverged from the expected one). -/
def actNode : ResourceGroup :=
  ⟨⟨"node-1", [("Name", "node-1")], ""⟩, [], none⟩

/-- Desired node resource. -/
def expNode : ResourceGroup :=
  ⟨⟨"node-1", [("Name", "node-1")], ""⟩, [], some poolNode⟩

/-- Environment for a fully successful node Apply: the master poll finds
an address on the first fetch. -/
def envNode : Env :=
  { getInstance := fun _ _ => .ok ⟨"m-1", "master-1", ["10.0.0.5"]⟩,
    listImages := .ok [⟨"img-1"⟩],
    listNetworks := .ok [⟨"net-pub", NetworkName⟩, ⟨"net-fab", FabricNetwork⟩],
    createInstance := fun _ => .ok ⟨"i-123", "node-1", []⟩,
    buildScript := .ok "bootstrap" }

/-- The create input of the successful node Apply under `envNode`. -/
def ciNode : CreateInstanceInput :=
  ⟨"node-1", PackageName, "img-1", ["net-pub", "net-fab"],
   [("user-script", "bootstrap")], [("name", "node-1")], ["node-1"]⟩

/-- The cluster state produced by the successful node Apply. -/
def cNodeFinal : Cluster :=
  ⟨"c", ⟨⟨"10.0.0.5", "443"⟩,
         [("INJECTEDMASTER", "10.0.0.5:443"), ("INJECTEDPORT", "443")], ""⟩⟩

/-- The resource produced by the successful node Apply. -/
def resNodeFinal : ResourceGroup :=
  ⟨⟨"node-1", [], "i-123"⟩, [],
   some ⟨"node-1", "node", "i-123", ["node.sh"]⟩⟩

/-- The remote-call trace of the successful node Apply. -/
def trNodeFinal : List RemoteCall :=
  [.getInstance "m-1", .listImages ImageName ImageVersion, .listNetworks,
   .createInstance ciNode]

/-- SDK environment using the SSH agent path with both clients healthy. -/
def sdkEnvAgent : SdkEnv :=
  { keyMaterialEnv := "", userEnv := "", statOk := false,
    readFileResult := .error "unused", pemDecode := fun _ => none,
    sshAgentSigner := .ok ⟨"agent"⟩, privateKeySigner := .error "unused",
    computeClient := .ok ⟨"cc"⟩, networkClient := .ok ⟨"nc"⟩ }

lemma getMasterIPFrom_count_le (fetches : Nat → FetchOutcome) (i n : Nat) :
    (getMasterIPFrom fetches i n).2 ≤ n := by
  induction n generalizing i with
  | zero => simp [getMasterIPFrom]
  | succ n ih =>
    simp only [getMasterIPFrom]
    cases fetches i with
    | fail e => simp
    | ok inst =>
      by_cases h : inst.ips.length > 0
      · simp [h]
      · simpa [h] using ih (i + 1)

/-- If the first `k` fetches (from index `i`) succeed with zero addresses and
fetch `i + k` succeeds with at least one address, the loop returns those
addresses with nil error after exactly `k + 1` fetches. -/
lemma getMasterIPFrom_first_hit (fetches : Nat → FetchOutcome) (i k n : Nat)
    (hk : k < n)
    (hpre : ∀ j, j < k → ∃ inst, fetches (i + j) = .ok inst ∧ inst.ips = [])
    (inst : RemoteInstance) (hhit : fetches (i + k) = .ok inst)
    (hne : inst.ips ≠ []) :
    getMasterIPFrom fetches i n = ((inst.ips, none), k + 1) := by
  induction k generalizing i n with
  | zero =>
    obtain ⟨n, rfl⟩ : ∃ m, n = m + 1 := ⟨n - 1, by omega⟩
    simp only [getMasterIPFrom]
    rw [show i + 0 = i from rfl] at hhit
    rw [hhit]
    have : inst.ips.length > 0 := by
      cases h : inst.ips with
      | nil => exact absurd h hne
      | cons a l => simp [h]
    simp [this]
  | succ k ih =>
    obtain ⟨n, rfl⟩ : ∃ m, n = m + 1 := ⟨n - 1, by omega⟩
    obtain ⟨inst0, hf0, hips0⟩ := hpre 0 (Nat.succ_pos k)
    rw [show i + 0 = i from rfl] at hf0
    simp only [getMasterIPFrom]
    rw [hf0]
    have hlen : ¬ inst0.ips.length > 0 := by simp [hips0]
    simp only [hlen, if_false]
    have hrec := ih (i + 1) n (by omega)
      (fun j hj => by
        have := hpre (j + 1) (by omega)
        simpa [Nat.add_assoc, Nat.add_comm 1 j] using this)
      (by simpa [Nat.add_assoc, Nat.add_comm 1 k] using hhit)
    rw [hrec]

/-- If the first `k` fetches (from index `i`) succeed with zero addresses and
fetch `i + k` fails, the loop returns `ret` with that error after exactly
`k + 1` fetches — it never fetches again after a transport error. -/
lemma getMasterIPFrom_first_fail (fetches : Nat → FetchOutcome) (i k n : Nat)
    (hk : k < n)
    (hpre : ∀ j, j < k → ∃ inst, fetches (i + j) = .ok inst ∧ inst.ips = [])
    (e : String) (hfail : fetches (i + k) = .fail e) :
    getMasterIPFrom fetches i n = ((retInit, some e), k + 1) := by
  induction k generalizing i n with
  | zero =>
    obtain ⟨n, rfl⟩ : ∃ m, n = m + 1 := ⟨n - 1, by omega⟩
    simp only [getMasterIPFrom]
    rw [show i + 0 = i from rfl] at hfail
    rw [hfail]
  | succ k ih =>
    obtain ⟨n, rfl⟩ : ∃ m, n = m + 1 := ⟨n - 1, by omega⟩
    obtain ⟨inst0, hf0, hips0⟩ := hpre 0 (Nat.succ_pos k)
    rw [show i + 0 = i from rfl] at hf0
    simp only [getMasterIPFrom]
    rw [hf0]
    have hlen : ¬ inst0.ips.length > 0 := by simp [hips0]
    simp only [hlen, if_false]
    have hrec := ih (i + 1) n (by omega)
      (fun j hj => by
        have := hpre (j + 1) (by omega)
        simpa [Nat.add_assoc, Nat.add_comm 1 j] using this)
      (by simpa [Nat.add_assoc, Nat.add_comm 1 k] using hfail)
    rw [hrec]

/-- If every fetch up to the ceiling succeeds with zero addresses, the loop
exhausts all `n` attempts and returns `ret` (three empty strings) and nil. -/
lemma getMasterIPFrom_exhaust (fetches : Nat → FetchOutcome) (i n : Nat)
    (hpre : ∀ j, ∃ inst, fetches j = .ok inst ∧ inst.ips = []) :
    getMasterIPFrom fetches i n = ((retInit, none), n) := by
  induction n generalizing i with
  | zero => simp [getMasterIPFrom]
  | succ n ih =>
    obtain ⟨inst0, hf0, hips0⟩ := hpre i
    simp only [getMasterIPFrom]
    rw [hf0]
    have hlen : ¬ inst0.ips.length > 0 := by simp [hips0]
    simp only [hlen, if_false]
    rw [ih (i + 1)]

lemma lookup_insertItem_self (m : List (String × String)) (k v : String) :
    (insertItem m k v).lookup k = some v := by
  induction m with
  | nil => simp [insertItem, List.lookup]
  | cons p rest ih =>
    obtain ⟨k', v'⟩ := p
    by_cases h : k' = k
    · simp [insertItem, h, List.lookup]
    · simp only [insertItem, if_neg h, List.lookup]
      have : (k == k') = false := by
        simp [beq_iff_eq]
        exact fun hkk => h hkk.symm
      simp [this, ih]

lemma lookup_insertItem_ne (m : List (String × String)) (k k' v : String)
    (h : k' ≠ k) : (insertItem m k v).lookup k' = m.lookup k' := by
  have hb : (k' == k) = false := beq_eq_false_iff_ne.mpr h
  induction m with
  | nil => simp [insertItem, List.lookup, hb]
  | cons p rest ih =>
    obtain ⟨k0, v0⟩ := p
    by_cases h0 : k0 = k
    · subst h0
      simp [insertItem, List.lookup, hb]
    · simp only [insertItem, if_neg h0, List.lookup]
      cases hbe : (k' == k0) <;> simp [hbe, ih]

lemma foldl_findNetsStep_fst (nets : List Network)
    (h : ∀ n ∈ nets, n.name ≠ NetworkName) :
    ∀ acc : Option Network × Option Network,
      (nets.foldl findNetsStep acc).1 = acc.1 := by
  induction nets with
  | nil => intro acc; rfl
  | cons n rest ih =>
    intro acc
    simp only [List.foldl_cons]
    rw [ih (fun m hm => h m (List.mem_cons_of_mem _ hm))]
    simp [findNetsStep, h n (List.mem_cons_self _ _)]

lemma foldl_findNetsStep_snd (nets : List Network)
    (h : ∀ n ∈ nets, n.name ≠ FabricNetwork) :
    ∀ acc : Option Network × Option Network,
      (nets.foldl findNetsStep acc).2 = acc.2 := by
  induction nets with
  | nil => intro acc; rfl
  | cons n rest ih =>
    intro acc
    simp only [List.foldl_cons]
    rw [ih (fun m hm => h m (List.mem_cons_of_mem _ hm))]
    simp [findNetsStep, h n (List.mem_cons_self _ _)]

lemma applyMasterStage_ok (env : Env) (pool : ServerPool)
    (created : RemoteInstance) (c3 c4 : Cluster) (tr : List RemoteCall)
    (h : applyMasterStage env pool created c3 = (.ok c4, tr)) :
    c4.providerConfig.itemMap = c3.providerConfig.itemMap ∧
    c4.providerConfig.kubernetesAPI.port =
      c3.providerConfig.kubernetesAPI.port ∧
    (pool.type ≠ ServerPoolTypeMaster → c4 = c3) := by
  by_cases hm : pool.type = ServerPoolTypeMaster
  · simp only [applyMasterStage, if_pos hm] at h
    split at h
    · exact absurd h (by simp)
    · split at h
      · exact absurd h (by simp)
      · split at h
        · exact absurd h (by simp)
        · simp only [Prod.mk.injEq, GoResult.ok.injEq] at h
          obtain ⟨hc, -⟩ := h
          subst hc
          exact ⟨rfl, rfl, fun hk => absurd hm hk⟩
  · simp only [applyMasterStage, if_neg hm] at h
    simp only [Prod.mk.injEq, GoResult.ok.injEq] at h
    obtain ⟨hc, -⟩ := h
    subst hc
    exact ⟨rfl, rfl, fun _ => rfl⟩

lemma applyNodeStage_ok (env : Env) (r : ResourceGroup) (pool : ServerPool)
    (c c2 : Cluster) (tr : List RemoteCall)
    (h : applyNodeStage env r pool c = (.ok c2, tr)) :
    c2.providerConfig.kubernetesAPI.port =
      c.providerConfig.kubernetesAPI.port ∧
    (pool.type ≠ ServerPoolTypeNode → c2 = c) ∧
    (∀ ip rest n,
      getMasterIP (env.getInstance r.shared.identifier) =
        ((ip :: rest, none), n) →
      pool.type = ServerPoolTypeNode →
      c2.providerConfig.kubernetesAPI.endpoint = ip ∧
      c2.providerConfig.itemMap =
        insertItem c.providerConfig.itemMap "INJECTEDMASTER"
          (ip ++ ":" ++ c.providerConfig.kubernetesAPI.port)) := by
  by_cases hn : pool.type = ServerPoolTypeNode
  · rcases hg : getMasterIP (env.getInstance r.shared.identifier)
      with ⟨⟨ips, merr⟩, n0⟩
    simp only [applyNodeStage, if_pos hn, hg] at h
    cases merr with
    | some e => exact absurd h (by simp)
    | none =>
      cases ips with
      | nil => exact absurd h (by simp)
      | cons ip tail =>
        simp only [Prod.mk.injEq, GoResult.ok.injEq] at h
        obtain ⟨hc, -⟩ := h
        subst hc
        refine ⟨rfl, fun hk => absurd hn hk, ?_⟩
        intro ip0 rest n hgm _
        simp only [Prod.mk.injEq, List.cons.injEq] at hgm
        obtain ⟨⟨⟨hip, -⟩, -⟩, -⟩ := hgm
        subst hip
        exact ⟨rfl, rfl⟩
  · simp only [applyNodeStage, if_neg hn] at h
    simp only [Prod.mk.injEq, GoResult.ok.injEq] at h
    obtain ⟨hc, -⟩ := h
    subst hc
    exact ⟨rfl, fun _ => rfl, fun _ _ _ _ hk => absurd hk hn⟩

lemma applyNodeStage_no_create (env : Env) (r : ResourceGroup)
    (pool : ServerPool) (c : Cluster) (inp : CreateInstanceInput) :
    RemoteCall.createInstance inp ∉ (applyNodeStage env r pool c).2 := by
  by_cases hn : pool.type = ServerPoolTypeNode
  · rcases hg : getMasterIP (env.getInstance r.shared.identifier)
      with ⟨⟨ips, merr⟩, n0⟩
    simp only [applyNodeStage, if_pos hn, hg]
    cases merr with
    | some e => simp [List.mem_replicate]
    | none =>
      cases ips with
      | nil => simp [List.mem_replicate]
      | cons ip tail => simp [List.mem_replicate]
  · simp [applyNodeStage, if_neg hn]

lemma applyNodeStage_ok_of_success (env : Env) (r : ResourceGroup)
    (pool : ServerPool) (c : Cluster)
    (hn : pool.type = ServerPoolTypeNode) (ip : String) (rest : List String)
    (n : Nat)
    (hgm : getMasterIP (env.getInstance r.shared.identifier) =
      ((ip :: rest, none), n)) :
    applyNodeStage env r pool c =
      (.ok { c with providerConfig :=
          { c.providerConfig with
              kubernetesAPI :=
                { c.providerConfig.kubernetesAPI with endpoint := ip },
              itemMap :=
                insertItem c.providerConfig.itemMap "INJECTEDMASTER"
                  (ip ++ ":" ++ c.providerConfig.kubernetesAPI.port) } },
       List.replicate n (RemoteCall.getInstance r.shared.identifier)) := by
  simp only [applyNodeStage, if_pos hn, hgm]

lemma applyAfterScript_ok (env : Env) (pool : ServerPool)
    (eR : ResourceGroup) (c3 : Cluster) (s : String) (c4 : Cluster)
    (res : ResourceGroup) (tr : List RemoteCall)
    (h : applyAfterScript env pool eR c3 s = (.ok (c4, res), tr)) :
    c4.providerConfig.itemMap = c3.providerConfig.itemMap ∧
    c4.providerConfig.kubernetesAPI.port =
      c3.providerConfig.kubernetesAPI.port ∧
    (pool.type ≠ ServerPoolTypeMaster → c4 = c3) := by
  simp only [applyAfterScript] at h
  split at h
  · split at h
    · exact absurd h (by simp)
    · split at h
      · exact absurd h (by simp)
      · exact absurd h (by simp)
      · rename_i hms
        split at h
        · exact absurd h (by simp)
        · simp only [Prod.mk.injEq, GoResult.ok.injEq] at h
          obtain ⟨⟨hc, -⟩, -⟩ := h
          subst hc
          exact applyMasterStage_ok _ _ _ _ _ _ hms
  · exact absurd h (by simp)

lemma applyAfterScript_missing_network (env : Env) (pool : ServerPool)
    (eR : ResourceGroup) (c3 : Cluster) (s : String) (nets : List Network)
    (hnets : env.listNetworks = .ok nets)
    (hmiss : (∀ n ∈ nets, n.name ≠ NetworkName) ∨
             (∀ n ∈ nets, n.name ≠ FabricNetwork)) :
    applyAfterScript env pool eR c3 s =
      (.panic nilDeref,
       [RemoteCall.listImages ImageName ImageVersion,
        RemoteCall.listNetworks]) := by
  simp only [applyAfterScript, hnets]
  rcases hfn : findNets nets with ⟨o1, o2⟩
  rcases hmiss with hm | hm
  · have h1 : o1 = none := by
      have hf := foldl_findNetsStep_fst nets hm (none, none)
      rw [show nets.foldl findNetsStep (none, none) = findNets nets from rfl,
        hfn] at hf
      exact hf
    subst h1
    cases o2 <;> simp [hfn]
  · have h2 : o2 = none := by
      have hf := foldl_findNetsStep_snd nets hm (none, none)
      rw [show nets.foldl findNetsStep (none, none) = findNets nets from rfl,
        hfn] at hf
      exact hf
    subst h2
    cases o1 <;> simp [hfn]

lemma mkClients_ret (env : SdkEnv) (s : Option Sdk) (e : Option String)
    (h : mkClients env = .ret s e) : s.isSome = true ∧ e = none := by
  unfold mkClients at h
  split at h
  · exact absurd h (by simp)
  · split at h
    · exact absurd h (by simp)
    · simp only [NewSdkOutcome.ret.injEq] at h
      obtain ⟨hs, he⟩ := h
      subst hs; subst he
      exact ⟨rfl, rfl⟩

/-- C2: the claim says that when every one of the `MasterIPAttempts` fetches
succeeds with zero addresses, `getMasterIP` returns an *empty* sequence and
nil error.  The code instead initializes `ret := make([]string, 3, 3)` and
returns it: a length-3 sequence of empty strings, with nil error, after all
100 fetches.  This theorem evaluates the code at that failing input. -/
theorem getMasterIP_exhausted_returns_three_empty_strings :
    getMasterIP allEmptyFetches = ((["", "", ""], none), 100) ∧
      (["", "", ""] : List String) ≠ [] := by
  refine ⟨?_, by decide⟩
  have h := getMasterIPFrom_exhaust allEmptyFetches 0 MasterIPAttempts
    (fun j => ⟨⟨"i-123", "node-1", []⟩, rfl, rfl⟩)
  simpa [getMasterIP, retInit, MasterIPAttempts] using h

/-- C6: for every fetch environment, if the first `k` fetches succeed with
zero addresses (and are therefore retried) and fetch `k` fails, the poller
returns that error immediately after exactly `k + 1` fetches — it never
issues another fetch after a transport error, while a zero-address success
is retried up to the attempt ceiling. -/
theorem getMasterIP_stops_on_first_error (fetches : Nat → FetchOutcome)
    (k : Nat) (e : String) (hk : k < MasterIPAttempts)
    (hpre : ∀ j, j < k → ∃ inst, fetches j = .ok inst ∧ inst.ips = [])
    (hfail : fetches k = .fail e) :
    getMasterIP fetches = ((retInit, some e), k + 1) := by
  have h := getMasterIPFrom_first_fail fetches 0 k MasterIPAttempts hk
    (fun j hj => by simpa using hpre j hj) e (by simpa using hfail)
  simpa [getMasterIP] using h


theorem getMasterIP_stops_on_first_error_witness :
    getMasterIP oneEmptyThenFail = ((retInit, some "boom"), 2) :=
  getMasterIP_stops_on_first_error oneEmptyThenFail 1 "boom" (by decide)
    (fun j hj => ⟨⟨"i-123", "node-1", []⟩, by simp [oneEmptyThenFail, hj], rfl⟩)
    (by decide)

/-- C7: for every fetch environment, the poller performs at most
`MasterIPAttempts` (100) fetches, and on the first fetch that yields one or
more addresses it returns that full address list immediately with nil error
after exactly `k + 1` fetches, without waiting for the remaining attempts. -/
theorem getMasterIP_bounded_and_returns_on_first_address
    (fetches : Nat → FetchOutcome) :
    (getMasterIP fetches).2 ≤ MasterIPAttempts ∧
      (∀ k inst, k < MasterIPAttempts →
        (∀ j, j < k → ∃ i, fetches j = .ok i ∧ i.ips = []) →
        fetches k = .ok inst → inst.ips ≠ [] →
        getMasterIP fetches = ((inst.ips, none), k + 1)) := by
  refine ⟨getMasterIPFrom_count_le fetches 0 MasterIPAttempts, ?_⟩
  intro k inst hk hpre hhit hne
  have h := getMasterIPFrom_first_hit fetches 0 k MasterIPAttempts hk
    (fun j hj => by simpa using hpre j hj) inst (by simpa using hhit) hne
  simpa [getMasterIP] using h

theorem getMasterIP_bounded_and_returns_on_first_address_witness :
    getMasterIP scenarioFetches = ((["10.0.0.5"], none), 3) :=
  (getMasterIP_bounded_and_returns_on_first_address scenarioFetches).2 2
    ⟨"i-123", "node-1", ["10.0.0.5"]⟩ (by decide)
    (fun j hj => ⟨⟨"i-123", "node-1", []⟩, by simp [scenarioFetches, hj], rfl⟩)
    (by decide) (by decide)

/-- C5: for every pair of resources the structural equality comparer
judges equal, `Apply` short-circuits: it issues no remote call, mutates
nothing, and returns the input cluster state and the expected resource
with a nil error. -/
theorem Apply_noop_when_compare_equal (env : Env) (r a e : ResourceGroup)
    (c : Cluster) (h : (isEqual a e).1 = true) :
    ResourceGroup.Apply env r a e c = (.ok (c, e), []) := by
  have hae : a = e := by simpa [isEqual] using h
  subst hae
  simp [ResourceGroup.Apply, isEqual]

theorem Apply_noop_when_compare_equal_witness :
    ResourceGroup.Apply envQuiet rgPlain rgPlain rgPlain clusterFix =
      (.ok (clusterFix, rgPlain), []) :=
  Apply_noop_when_compare_equal envQuiet rgPlain rgPlain rgPlain clusterFix
    (by simp [isEqual])

/-- C8: `Delete` on a resource with an empty identifier fails with the
"missing identifier" error without touching the cluster state; on a
non-empty identifier it returns the cleared-down resource (empty
identifier, receiver name/tags) and the rendered cluster; in every case
the remote-call trace is empty — no remote deletion is ever issued. -/
theorem Delete_requires_identifier_and_never_calls_remote
    (r a : ResourceGroup) (c : Cluster) :
    (a.shared.identifier = "" →
      ResourceGroup.Delete r a c =
        (.err ("Unable to delete VPC resource without ID ["
                ++ a.shared.name ++ "]"), [])) ∧
    (a.shared.identifier ≠ "" →
      ResourceGroup.Delete r a c =
        (.ok (ResourceGroup.immutableRender
                ⟨⟨r.shared.name, r.shared.tags, ""⟩, [], none⟩ c,
              ⟨⟨r.shared.name, r.shared.tags, ""⟩, [], none⟩), [])) ∧
    (ResourceGroup.Delete r a c).2 = [] := by
  refine ⟨fun h => ?_, fun h => ?_, ?_⟩
  · simp [ResourceGroup.Delete, h]
  · simp [ResourceGroup.Delete, h]
  · by_cases h : a.shared.identifier = "" <;> simp [ResourceGroup.Delete, h]

theorem Delete_requires_identifier_witness :
    ResourceGroup.Delete rgPlain rgPlain clusterFix =
      (.err ("Unable to delete VPC resource without ID ["
              ++ rgPlain.shared.name ++ "]"), []) ∧
    ResourceGroup.Delete rgPlain rgWithId clusterFix =
      (.ok (ResourceGroup.immutableRender
              ⟨⟨rgPlain.shared.name, rgPlain.shared.tags, ""⟩, [], none⟩
              clusterFix,
            ⟨⟨rgPlain.shared.name, rgPlain.shared.tags, ""⟩, [], none⟩), []) :=
  ⟨(Delete_requires_identifier_and_never_calls_remote rgPlain rgPlain
      clusterFix).1 rfl,
   (Delete_requires_identifier_and_never_calls_remote rgPlain rgWithId
      clusterFix).2.1 (by decide)⟩

/-- C3: the claim says a failed fetch makes `Actual` return the error
without crashing and without using the fetched instance.  The code copies
`instance.Name` / `instance.ID` *before* its `err != nil` check, so at the
failing input (identifier "i-1", fetch fails) the run panics on the nil
instance pointer instead of returning the error; when the fetch succeeds
the returned resource is populated from the live name and id as claimed. -/
theorem Actual_uses_instance_before_error_check :
    ResourceGroup.Actual envFetchFail rgActual clusterFix =
      (.panic nilDeref, [.getInstance "i-1"]) ∧
    ResourceGroup.Actual envFetchOk rgActual clusterFix =
      (.ok (clusterFix, ⟨⟨"live-name", [("Name", "pool-1")], "i-9"⟩, [], none⟩),
       [.getInstance "i-1"]) := ⟨rfl, rfl⟩

/-- C1: the claim says that when create succeeds but the poller exhausts
all attempts with no address seen, `Apply` on a master returns an error.
At that failing input the code instead *succeeds*: `getMasterIP` returns
three empty strings on exhaustion, so the `len(masterIPs) == 0` guard
never fires and the cluster endpoint is set to the empty string. -/
theorem Apply_master_exhaustion_not_an_error :
    ∃ res tr,
      ResourceGroup.Apply envMasterExhaust rgMaster actMaster expMaster
        clusterFix = (.ok res, tr) ∧
      res.1.providerConfig.kubernetesAPI.endpoint = "" ∧
      res.2.shared.identifier = "i-123" :=
  ⟨_, _, rfl, rfl, rfl⟩

/-- C4 counterexample: the claim says that with no matching network in the
listing, `Apply` still reaches create-instance and invokes it with empty
network ids.  At this concrete input the run instead panics on the nil
`net1` pointer while building the create input and never issues a create
call. -/
theorem Apply_missing_networks_panics_cex :
    ResourceGroup.Apply envNoNets rgMaster actMaster expMaster clusterFix =
      (.panic nilDeref,
       [.listImages ImageName ImageVersion, .listNetworks]) ∧
    ∀ inp, RemoteCall.createInstance inp ∉
      (ResourceGroup.Apply envNoNets rgMaster actMaster expMaster
        clusterFix).2 := by
  refine ⟨rfl, fun inp h => ?_⟩
  rw [show (ResourceGroup.Apply envNoNets rgMaster actMaster expMaster
        clusterFix).2 =
      [RemoteCall.listImages ImageName ImageVersion, RemoteCall.listNetworks]
    from rfl] at h
  simp at h

/-- C9: whenever `Apply` on a diverged pair returns successfully, the
returned cluster state's injection map carries the control-plane port
under INJECTEDPORT (independent of role); and when the pool is a node and
address discovery succeeded with first address `ip`, the returned
endpoint equals `ip` and the injection map carries the composite
`"address:port"` string under INJECTEDMASTER. -/
theorem Apply_diverged_sets_port_and_node_endpoint (env : Env)
    (r : ResourceGroup) (pool : ServerPool) (a eR : ResourceGroup)
    (c cOut : Cluster) (res : ResourceGroup) (tr : List RemoteCall)
    (hpool : r.serverPool = some pool)
    (hneq : (isEqual a eR).1 = false)
    (hok : ResourceGroup.Apply env r a eR c = (.ok (cOut, res), tr)) :
    cOut.providerConfig.itemMap.lookup "INJECTEDPORT" =
      some c.providerConfig.kubernetesAPI.port ∧
    (pool.type = ServerPoolTypeNode →
      ∀ ip rest n,
        getMasterIP (env.getInstance r.shared.identifier) =
          ((ip :: rest, none), n) →
        cOut.providerConfig.kubernetesAPI.endpoint = ip ∧
        cOut.providerConfig.itemMap.lookup "INJECTEDMASTER" =
          some (ip ++ ":" ++ c.providerConfig.kubernetesAPI.port)) := by
  have hne : ¬ a = eR := by simpa [isEqual] using hneq
  simp only [ResourceGroup.Apply, isEqual, decide_eq_true_eq, hne,
    if_false, hpool] at hok
  split at hok
  · exact absurd hok (by simp)
  · exact absurd hok (by simp)
  · rename_i c2 tr1 hns
    split at hok
    · exact absurd hok (by simp)
    · rename_i s hbs
      rcases has : applyAfterScript env pool eR (injectPort c2) s
        with ⟨gr, tr6⟩
      rw [has] at hok
      simp only [Prod.mk.injEq] at hok
      obtain ⟨hgr, -⟩ := hok
      subst hgr
      obtain ⟨hA1, hA2, hA3⟩ :=
        applyAfterScript_ok env pool eR (injectPort c2) s cOut res tr6 has
      obtain ⟨hN1, hN2, hN3⟩ := applyNodeStage_ok env r pool c c2 tr1 hns
      constructor
      · rw [hA1]
        simp only [injectPort]
        rw [lookup_insertItem_self, hN1]
      · intro hnode ip rest n hgm
        have hcm : pool.type ≠ ServerPoolTypeMaster := by
          rw [hnode]; decide
        have hco : cOut = injectPort c2 := hA3 hcm
        obtain ⟨hend, hmap⟩ := hN3 ip rest n hgm hnode
        constructor
        · rw [hco]
          simpa [injectPort] using hend
        · rw [hco]
          simp only [injectPort]
          rw [lookup_insertItem_ne _ _ _ _ (by decide), hmap,
            lookup_insertItem_self]

theorem Apply_diverged_sets_port_and_node_endpoint_witness :
    cNodeFinal.providerConfig.itemMap.lookup "INJECTEDPORT" = some "443" ∧
    cNodeFinal.providerConfig.kubernetesAPI.endpoint = "10.0.0.5" ∧
    cNodeFinal.providerConfig.itemMap.lookup "INJECTEDMASTER" =
      some "10.0.0.5:443" := by
  have h := Apply_diverged_sets_port_and_node_endpoint envNode rgNode
    poolNode actNode expNode clusterFix cNodeFinal resNodeFinal trNodeFinal
    rfl (by decide) rfl
  exact ⟨h.1, (h.2 rfl "10.0.0.5" [] 1 rfl).1, (h.2 rfl "10.0.0.5" [] 1 rfl).2⟩

/-- C4 amended: when the network listing succeeds but contains no network
named Joyent-SDC-Public, or none named My-Fabric-Network, an `Apply` run
that reaches the listing (compare diverged, node-role discovery — if any —
succeeded, bootstrap script rendered) panics with a nil-pointer
dereference while building the create input, and never invokes
create-instance. -/
theorem Apply_missing_network_panics_before_create (env : Env)
    (r : ResourceGroup) (pool : ServerPool) (a eR : ResourceGroup)
    (c : Cluster) (nets : List Network)
    (hpool : r.serverPool = some pool)
    (hneq : (isEqual a eR).1 = false)
    (hnode : pool.type = ServerPoolTypeNode →
      ∃ ip rest n,
        getMasterIP (env.getInstance r.shared.identifier) =
          ((ip :: rest, none), n))
    (hscript : ∃ s, env.buildScript = .ok s)
    (hnets : env.listNetworks = .ok nets)
    (hmiss : (∀ n ∈ nets, n.name ≠ NetworkName) ∨
             (∀ n ∈ nets, n.name ≠ FabricNetwork)) :
    ∃ tr, ResourceGroup.Apply env r a eR c = (.panic nilDeref, tr) ∧
      ∀ inp, RemoteCall.createInstance inp ∉ tr := by
  obtain ⟨s, hs⟩ := hscript
  have hne : ¬ a = eR := by simpa [isEqual] using hneq
  have hnsE : ∃ c2 tr1, applyNodeStage env r pool c = (.ok c2, tr1) ∧
      ∀ inp, RemoteCall.createInstance inp ∉ tr1 := by
    by_cases hn : pool.type = ServerPoolTypeNode
    · obtain ⟨ip, rest, n, hgm⟩ := hnode hn
      refine ⟨_, _, applyNodeStage_ok_of_success env r pool c hn ip rest n
        hgm, ?_⟩
      intro inp
      simp [List.mem_replicate]
    · exact ⟨c, [], by simp [applyNodeStage, if_neg hn], by simp⟩
  obtain ⟨c2, tr1, hns, htr1⟩ := hnsE
  refine ⟨tr1 ++ [RemoteCall.listImages ImageName ImageVersion,
                  RemoteCall.listNetworks], ?_, ?_⟩
  · simp only [ResourceGroup.Apply, isEqual, decide_eq_true_eq, hne,
      if_false, hpool, hns, hs]
    rw [applyAfterScript_missing_network env pool eR (injectPort c2) s nets
      hnets hmiss]
  · intro inp
    simp only [List.mem_append, not_or]
    exact ⟨htr1 inp, by simp⟩

theorem Apply_missing_network_panics_before_create_witness :
    (ResourceGroup.Apply envNoNets rgMaster actMaster expMaster
      clusterFix).1 = .panic nilDeref := by
  obtain ⟨tr, h1, -⟩ := Apply_missing_network_panics_before_create envNoNets
    rgMaster poolMaster actMaster expMaster clusterFix
    [⟨"net-x", "Some-Other-Network"⟩] rfl (by decide)
    (fun h => absurd h (by decide))
    ⟨"bootstrap", rfl⟩ rfl
    (Or.inl (by
      intro n hn
      simp only [List.mem_singleton] at hn
      subst hn
      decide))
  rw [h1]

/-- C10: every `NewSdk` run that returns (rather than terminating the
process through `log.Fatalf`) returns a non-nil `Sdk` together with a nil
error: the hard-coded `keyID` constant is non-empty, so both
"Empty $TRITON_KEY_ID" error branches are unreachable, and every other
failure path is fatal. -/
theorem NewSdk_returns_some_sdk_nil_error (env : SdkEnv) (s : Option Sdk)
    (e : Option String) (h : NewSdk env = .ret s e) :
    s.isSome = true ∧ e = none := by
  simp only [NewSdk] at h
  rw [if_neg (by decide :
    ¬("f7:75:b3:53:fe:d5:5d:26:13:2a:7f:9b:6b:2e:94:94" : String) = "")] at h
  rw [if_neg (by decide :
    ¬("f7:75:b3:53:fe:d5:5d:26:13:2a:7f:9b:6b:2e:94:94" : String) = "")] at h
  split at h
  · split at h
    · exact absurd h (by simp)
    · exact mkClients_ret env s e h
  · split at h
    · split at h
      · exact absurd h (by simp)
      · split at h
        · exact absurd h (by simp)
        · split at h
          · exact absurd h (by simp)
          · split at h
            · exact absurd h (by simp)
            · exact mkClients_ret env s e h
    · split at h
      · exact absurd h (by simp)
      · exact mkClients_ret env s e h

theorem NewSdk_returns_some_sdk_nil_error_witness :
    (some (Sdk.mk ⟨"cc"⟩ ⟨"nc"⟩)).isSome = true ∧
    (none : Option String) = none :=
  NewSdk_returns_some_sdk_nil_error sdkEnvAgent
    (some (Sdk.mk ⟨"cc"⟩ ⟨"nc"⟩)) none rfl

end KubicornTriton
